import Mathlib

/-!
Verification of the window lifecycle / focus-coordination layer of the
`utensils/snips` desktop application
(`src-tauri/src/services/window.rs`, `src-tauri/src/services/dbus_watchdog.rs`).

The Rust code is shallowly embedded: machine integers become `Nat`
(`u64::saturating_add` is modelled explicitly), the toolkit (Tauri) calls
become parameters of the embedded functions (an environment of query
answers, or an explicit state record), and fallible operations return
`Except`.
-/

namespace Snips

/-! ## Focus with backoff (`window.rs`, `focus_window_with_backoff`, Linux) -/

/-- Outcome of one focus-acquisition sequence (`struct FocusResult`). -/
structure FocusResult where
  attempts : Nat
  success : Bool
  deriving Repr, DecidableEq

/-- Environment of toolkit answers for the backoff loop, indexed by the
attempt number (1-based, as the Rust `attempts` counter after increment):
`setFocusOk k` is whether `window.set_focus()` returns `Ok` on attempt `k`,
and `isFocused k` is `window.is_focused().unwrap_or(false)` observed after
the sleep of attempt `k`. -/
structure AttemptEnv where
  setFocusOk : Nat → Bool
  isFocused : Nat → Bool

/-- `max_attempts` in `focus_window_with_backoff`. -/
def maxAttempts : Nat := 5

/-- Attempt `k` ends the loop with success exactly when `set_focus()`
returned `Ok` (so the sleep and query happen) and the window then reports
itself focused. -/
def attemptSucceeds (env : AttemptEnv) (k : Nat) : Bool :=
  env.setFocusOk k && env.isFocused k

/-- The `while attempts < max_attempts` loop of `focus_window_with_backoff`.
`attempts` and `delay` are the Rust mutable locals; `fuel` is the number of
loop iterations still permitted (`max_attempts - attempts` at every call).
Besides the `FocusResult` it returns the value of `delay_ms` in effect at
each executed attempt, in attempt order (instrumenting the
`thread::sleep(Duration::from_millis(delay_ms))` call; when `set_focus`
errors the sleep is skipped but `delay_ms` still doubles, exactly as in the
source). After every non-final attempt `delay_ms = (delay_ms * 2).min(320)`. -/
def focusGo (env : AttemptEnv) : Nat → Nat → Nat → FocusResult × List Nat
  | attempts, _delay, 0 => (⟨attempts, false⟩, [])
  | attempts, delay, fuel + 1 =>
    if attemptSucceeds env (attempts + 1) then
      (⟨attempts + 1, true⟩, [delay])
    else
      let rest := focusGo env (attempts + 1) (min (delay * 2) 320) fuel
      (rest.1, delay :: rest.2)

/-- `focus_window_with_backoff` (Linux build): `attempts = 0`,
`delay_ms = 20`, `max_attempts = 5`. -/
def focus_window_with_backoff (env : AttemptEnv) : FocusResult × List Nat :=
  focusGo env 0 20 maxAttempts

/-- Closed form of the doubling-capped delay sequence. -/
def backoffDelay (i : Nat) : Nat := min (20 * 2 ^ i) 320

/-- The delay sequence actually produced by repeated
`delay_ms = (delay_ms * 2).min(320)` starting from `d`. -/
def delaySeq : Nat → Nat → List Nat
  | _, 0 => []
  | d, n + 1 => d :: delaySeq (min (d * 2) 320) n

theorem focusGo_attempts_le (env : AttemptEnv) :
    ∀ fuel attempts delay,
      (focusGo env attempts delay fuel).1.attempts ≤ attempts + fuel := by
  intro fuel
  induction fuel with
  | zero => intro attempts delay; simp [focusGo]
  | succ f ih =>
      intro attempts delay
      cases h : attemptSucceeds env (attempts + 1) with
      | true => simp [focusGo, h]
      | false =>
          have hx := ih (attempts + 1) (min (delay * 2) 320)
          simp [focusGo, h]
          omega

theorem focusGo_attempts_ge (env : AttemptEnv) :
    ∀ fuel attempts delay,
      attempts ≤ (focusGo env attempts delay fuel).1.attempts := by
  intro fuel
  induction fuel with
  | zero => intro attempts delay; simp [focusGo]
  | succ f ih =>
      intro attempts delay
      cases h : attemptSucceeds env (attempts + 1) with
      | true => simp [focusGo, h]
      | false =>
          have hx := ih (attempts + 1) (min (delay * 2) 320)
          simp [focusGo, h]
          omega

theorem focusGo_attempts_ge_one (env : AttemptEnv) :
    ∀ fuel attempts delay, 1 ≤ fuel →
      attempts + 1 ≤ (focusGo env attempts delay fuel).1.attempts := by
  intro fuel
  cases fuel with
  | zero => omega
  | succ f =>
      intro attempts delay _
      cases h : attemptSucceeds env (attempts + 1) with
      | true => simp [focusGo, h]
      | false =>
          have hx := focusGo_attempts_ge env f (attempts + 1) (min (delay * 2) 320)
          simp [focusGo, h]
          omega

theorem focusGo_not_success (env : AttemptEnv) :
    ∀ fuel attempts delay,
      (focusGo env attempts delay fuel).1.success = false →
      (focusGo env attempts delay fuel).1.attempts = attempts + fuel := by
  intro fuel
  induction fuel with
  | zero => intro attempts delay _; simp [focusGo]
  | succ f ih =>
      intro attempts delay hsucc
      cases h : attemptSucceeds env (attempts + 1) with
      | true => simp [focusGo, h] at hsucc
      | false =>
          have hx := ih (attempts + 1) (min (delay * 2) 320)
          simp [focusGo, h] at hsucc ⊢
          have := hx hsucc
          omega

theorem focusGo_success_iff (env : AttemptEnv) :
    ∀ fuel attempts delay,
      ((focusGo env attempts delay fuel).1.success = true ↔
        ∃ k, attempts + 1 ≤ k ∧ k ≤ (focusGo env attempts delay fuel).1.attempts ∧
          attemptSucceeds env k = true) := by
  intro fuel
  induction fuel with
  | zero =>
      intro attempts delay
      constructor
      · intro h; simp [focusGo] at h
      · rintro ⟨k, hk1, hk2, _⟩; simp [focusGo] at hk2 ⊢; omega
  | succ f ih =>
      intro attempts delay
      cases h : attemptSucceeds env (attempts + 1) with
      | true =>
          constructor
          · intro _
            refine ⟨attempts + 1, Nat.le_refl _, ?_, h⟩
            simp [focusGo, h]
          · intro _
            simp [focusGo, h]
      | false =>
          have ihx := ih (attempts + 1) (min (delay * 2) 320)
          simp only [focusGo, h, Bool.false_eq_true, if_false]
          rw [ihx]
          constructor
          · rintro ⟨k, hk1, hk2, hk3⟩
            exact ⟨k, by omega, hk2, hk3⟩
          · rintro ⟨k, hk1, hk2, hk3⟩
            refine ⟨k, ?_, hk2, hk3⟩
            rcases Nat.eq_or_lt_of_le hk1 with heq | hlt
            · rw [← heq] at hk3
              simp [h] at hk3
            · omega

theorem focusGo_delays (env : AttemptEnv) :
    ∀ fuel attempts delay,
      (focusGo env attempts delay fuel).2 =
        delaySeq delay ((focusGo env attempts delay fuel).1.attempts - attempts) := by
  intro fuel
  induction fuel with
  | zero => intro attempts delay; simp [focusGo, delaySeq]
  | succ f ih =>
      intro attempts delay
      cases h : attemptSucceeds env (attempts + 1) with
      | true => simp [focusGo, h, delaySeq]
      | false =>
          have hge := focusGo_attempts_ge env f (attempts + 1) (min (delay * 2) 320)
          have ihx := ih (attempts + 1) (min (delay * 2) 320)
          simp only [focusGo, h, Bool.false_eq_true, if_false]
          rw [ihx]
          have hsub :
              (focusGo env (attempts + 1) (min (delay * 2) 320) f).1.attempts - attempts =
                ((focusGo env (attempts + 1) (min (delay * 2) 320) f).1.attempts -
                  (attempts + 1)) + 1 := by omega
          rw [hsub, delaySeq]

theorem backoffDelay_step (j : Nat) :
    min (backoffDelay j * 2) 320 = backoffDelay (j + 1) := by
  unfold backoffDelay
  rcases Nat.le_total (20 * 2 ^ j) 320 with hle | hle
  · rw [Nat.min_eq_left hle]
    have : 20 * 2 ^ (j + 1) = 20 * 2 ^ j * 2 := by ring
    rw [this]
  · rw [Nat.min_eq_right hle]
    have h1 : 320 ≤ 20 * 2 ^ (j + 1) := by
      have : 20 * 2 ^ j ≤ 20 * 2 ^ (j + 1) := by
        apply Nat.mul_le_mul_left
        exact Nat.pow_le_pow_right (by norm_num) (by omega)
      omega
    rw [Nat.min_eq_right h1]
    simp

theorem delaySeq_closed_form :
    ∀ n j, delaySeq (backoffDelay j) n =
      (List.range n).map (fun i => backoffDelay (j + i)) := by
  intro n
  induction n with
  | zero => intro j; simp [delaySeq]
  | succ m ih =>
      intro j
      rw [delaySeq, backoffDelay_step, ih (j + 1), List.range_succ_eq_map]
      simp only [List.map_cons, List.map_map, Function.comp_def, Nat.add_zero,
        Nat.succ_eq_add_one]
      have hfun : (fun i => backoffDelay (j + 1 + i)) =
          fun i => backoffDelay (j + (i + 1)) := by
        funext i
        congr 1
        omega
      rw [hfun]

theorem delaySeq_twenty (n : Nat) :
    delaySeq 20 n = (List.range n).map backoffDelay := by
  have h20 : (20 : Nat) = backoffDelay 0 := by decide
  rw [h20, delaySeq_closed_form]
  simp

/-- C1: on Linux, `focus_window_with_backoff` always performs between 1 and
5 attempts; the delay in effect at attempt `i` (0-based) is
`min (20 * 2 ^ i) 320` (20 ms doubling, capped at 320 ms, so the first
delay is 20 ms); the result is successful exactly when some executed
attempt saw `set_focus` succeed and the window report itself focused after
the sleep; and a `set_focus` error never ends the loop early — the loop
only stops before attempt 5 on success. -/
theorem spec_C1_focus_backoff (env : AttemptEnv) :
    (1 ≤ (focus_window_with_backoff env).1.attempts ∧
      (focus_window_with_backoff env).1.attempts ≤ 5) ∧
    (focus_window_with_backoff env).2 =
      (List.range (focus_window_with_backoff env).1.attempts).map backoffDelay ∧
    (focus_window_with_backoff env).2.head? = some 20 ∧
    ((focus_window_with_backoff env).1.success = true ↔
      ∃ k, 1 ≤ k ∧ k ≤ (focus_window_with_backoff env).1.attempts ∧
        attemptSucceeds env k = true) ∧
    ((focus_window_with_backoff env).1.success = false →
      (focus_window_with_backoff env).1.attempts = 5) := by
  have hge := focusGo_attempts_ge_one env maxAttempts 0 20 (by decide)
  have hle := focusGo_attempts_le env maxAttempts 0 20
  have hdel := focusGo_delays env maxAttempts 0 20
  have hiff := focusGo_success_iff env maxAttempts 0 20
  have hnot := focusGo_not_success env maxAttempts 0 20
  rw [Nat.zero_add] at hge
  refine ⟨⟨hge, by simpa [maxAttempts] using hle⟩, ?_, ?_, ?_, ?_⟩
  · rw [show focus_window_with_backoff env = focusGo env 0 20 maxAttempts from rfl,
      hdel, Nat.sub_zero, delaySeq_twenty]
  · rw [show focus_window_with_backoff env = focusGo env 0 20 maxAttempts from rfl,
      hdel, Nat.sub_zero]
    obtain ⟨m, hm⟩ : ∃ m, (focusGo env 0 20 maxAttempts).1.attempts = m + 1 :=
      ⟨(focusGo env 0 20 maxAttempts).1.attempts - 1, by omega⟩
    rw [hm, delaySeq]
    rfl
  · simpa using hiff
  · intro hfail
    have := hnot hfail
    simpa [maxAttempts] using this

/-- Witness for C1 at a concrete environment where the first attempt
succeeds. -/
theorem spec_C1_focus_backoff_witness :
    (1 ≤ (focus_window_with_backoff ⟨fun _ => true, fun _ => true⟩).1.attempts ∧
      (focus_window_with_backoff ⟨fun _ => true, fun _ => true⟩).1.attempts ≤ 5) ∧
    (focus_window_with_backoff ⟨fun _ => true, fun _ => true⟩).2 =
      (List.range
        (focus_window_with_backoff ⟨fun _ => true, fun _ => true⟩).1.attempts).map
        backoffDelay ∧
    (focus_window_with_backoff ⟨fun _ => true, fun _ => true⟩).2.head? = some 20 ∧
    ((focus_window_with_backoff ⟨fun _ => true, fun _ => true⟩).1.success = true ↔
      ∃ k, 1 ≤ k ∧
        k ≤ (focus_window_with_backoff ⟨fun _ => true, fun _ => true⟩).1.attempts ∧
        attemptSucceeds ⟨fun _ => true, fun _ => true⟩ k = true) ∧
    ((focus_window_with_backoff ⟨fun _ => true, fun _ => true⟩).1.success = false →
      (focus_window_with_backoff ⟨fun _ => true, fun _ => true⟩).1.attempts = 5) :=
  spec_C1_focus_backoff ⟨fun _ => true, fun _ => true⟩

/-! ## D-Bus watchdog (`dbus_watchdog.rs`) -/

/-- `DEADLINE` (200 ms), as milliseconds. -/
def DEADLINE_MS : Nat := 200

/-- `MAX_SAMPLES`. -/
def MAX_SAMPLES : Nat := 50

def U64_MAX : Nat := 2 ^ 64 - 1

/-- `u64::saturating_add`, on the `Nat` model of `u64`. -/
def u64satAdd (a b : Nat) : Nat := min (a + b) U64_MAX

/-- `struct WatchdogState`. `Instant`s become `Nat` milliseconds; `pending`
(a `HashMap<String, Instant>`) becomes a partial map; `latencies` (a
`VecDeque<u128>`) becomes a list whose head is the oldest sample. The
wall-clock field `last_invoked_at` is not modelled. -/
structure WatchdogState where
  enabled : Bool
  monitor_running : Bool
  last_method : Option String
  last_window : Option String
  last_latency_ms : Option Nat
  last_within_deadline : Option Bool
  success_count : Nat
  deadline_miss_count : Nat
  pending : String → Option Nat
  latencies : List Nat
  notes : List String
  last_error : Option String

/-- `record_focus_outcome(label, success)`; `now` is `Instant::now()` taken
on entry. Disabled watchdog and missing pending entry both leave the state
unchanged. `now - start` is `saturating_duration_since` (`Nat` subtraction
is saturating). -/
def record_focus_outcome (st : WatchdogState) (label : String) (success : Bool)
    (now : Nat) : WatchdogState :=
  if st.enabled = false then st
  else
    match st.pending label with
    | none => st
    | some start =>
      let latency := now - start
      let within_deadline := decide (latency ≤ DEADLINE_MS) && success
      let pushed := st.latencies ++ [latency]
      { st with
        pending := fun l => if l = label then none else st.pending l
        last_latency_ms := some latency
        last_within_deadline := some within_deadline
        last_window := some label
        success_count :=
          if within_deadline then u64satAdd st.success_count 1 else st.success_count
        deadline_miss_count :=
          if within_deadline then st.deadline_miss_count
          else u64satAdd st.deadline_miss_count 1
        latencies := if pushed.length > MAX_SAMPLES then pushed.tail else pushed }

/-- `struct WatchdogSnapshot`. The `f64` mean is modelled as the exact
rational mean. `pending_count` and `last_invoked_at` are not modelled. -/
structure WatchdogSnapshot where
  enabled : Bool
  monitor_running : Bool
  last_method : Option String
  last_window : Option String
  last_latency_ms : Option Nat
  last_within_deadline : Option Bool
  success_count : Nat
  deadline_miss_count : Nat
  average_latency_ms : Option ℚ
  last_error : Option String
  notes : List String

/-- `diagnostics_snapshot()`: a disabled watchdog reports the default
snapshot (plus `notes` and `last_error`); an enabled one reports the state,
with `average_latency_ms = None` for an empty ring buffer and the mean of
the buffered samples otherwise. -/
def diagnostics_snapshot (st : WatchdogState) : WatchdogSnapshot :=
  if st.enabled = false then
    { enabled := false, monitor_running := false, last_method := none,
      last_window := none, last_latency_ms := none, last_within_deadline := none,
      success_count := 0, deadline_miss_count := 0, average_latency_ms := none,
      last_error := st.last_error, notes := st.notes }
  else
    { enabled := true
      monitor_running := st.monitor_running
      last_method := st.last_method
      last_window := st.last_window
      last_latency_ms := st.last_latency_ms
      last_within_deadline := st.last_within_deadline
      success_count := st.success_count
      deadline_miss_count := st.deadline_miss_count
      average_latency_ms :=
        if st.latencies.isEmpty then none
        else some ((st.latencies.map fun n => (n : ℚ)).sum / (st.latencies.length : ℚ))
      last_error := st.last_error
      notes := st.notes }

theorem record_focus_outcome_latencies_le (st : WatchdogState) (label : String)
    (success : Bool) (now : Nat) (hlen : st.latencies.length ≤ MAX_SAMPLES) :
    (record_focus_outcome st label success now).latencies.length ≤ MAX_SAMPLES := by
  unfold record_focus_outcome
  by_cases hen : st.enabled = false
  · simp [hen, hlen]
  · simp only [hen, if_false]
    cases hp : st.pending label with
    | none => simpa using hlen
    | some start =>
        dsimp only
        by_cases hc : (st.latencies ++ [now - start]).length > MAX_SAMPLES
        · rw [if_pos hc]
          simp only [List.length_tail, List.length_append, List.length_cons,
            List.length_nil] at *
          simp [MAX_SAMPLES] at *
          omega
        · rw [if_neg hc]
          simp only [List.length_append, List.length_cons, List.length_nil] at *
          simp [MAX_SAMPLES] at *
          omega

/-- A concrete enabled watchdog state with one pending entry for
`"quick-add"` inserted at t = 0 ms and an empty ring buffer. -/
def exampleWatchdogState : WatchdogState where
  enabled := true
  monitor_running := true
  last_method := some "ShowQuickAdd"
  last_window := some "quick-add"
  last_latency_ms := none
  last_within_deadline := none
  success_count := 0
  deadline_miss_count := 0
  pending := fun l => if l = "quick-add" then some 0 else none
  latencies := []
  notes := []
  last_error := none

/-- C2: on an enabled watchdog, `record_focus_outcome` with a pending entry
for the label removes that entry (leaving other labels untouched),
classifies the elapsed time as within-deadline iff `elapsed ≤ 200 ∧
success`, bumps exactly the matching counter (with `u64` saturating
arithmetic, i.e. a plain increment below `u64::MAX`), and appends the
latency to the ring buffer, evicting the oldest sample so that the length
never exceeds 50; with no pending entry the call leaves the state
unchanged (the embedding is a total function — no panic). -/
theorem spec_C2_record_focus_outcome (st : WatchdogState) (label : String)
    (success : Bool) (now : Nat) (hen : st.enabled = true)
    (hlen : st.latencies.length ≤ 50) :
    (st.pending label = none → record_focus_outcome st label success now = st) ∧
    (∀ start, st.pending label = some start →
      (record_focus_outcome st label success now).pending label = none ∧
      (∀ l, l ≠ label →
        (record_focus_outcome st label success now).pending l = st.pending l) ∧
      (record_focus_outcome st label success now).last_within_deadline =
        some (decide (now - start ≤ 200) && success) ∧
      (record_focus_outcome st label success now).success_count =
        (if decide (now - start ≤ 200) && success then u64satAdd st.success_count 1
         else st.success_count) ∧
      (record_focus_outcome st label success now).deadline_miss_count =
        (if decide (now - start ≤ 200) && success then st.deadline_miss_count
         else u64satAdd st.deadline_miss_count 1) ∧
      (record_focus_outcome st label success now).latencies =
        (if (st.latencies ++ [now - start]).length > 50 then
          (st.latencies ++ [now - start]).tail
         else st.latencies ++ [now - start]) ∧
      (record_focus_outcome st label success now).latencies.length ≤ 50) := by
  constructor
  · intro hp
    simp [record_focus_outcome, hen, hp]
  · intro start hp
    have hb := record_focus_outcome_latencies_le st label success now
      (by simpa [MAX_SAMPLES] using hlen)
    refine ⟨?_, ?_, ?_, ?_, ?_, ?_, by simpa [MAX_SAMPLES] using hb⟩
    · simp [record_focus_outcome, hen, hp]
    · intro l hl
      simp [record_focus_outcome, hen, hp, hl]
    · simp [record_focus_outcome, hen, hp, DEADLINE_MS]
    · simp [record_focus_outcome, hen, hp, DEADLINE_MS]
    · simp [record_focus_outcome, hen, hp, DEADLINE_MS]
    · simp [record_focus_outcome, hen, hp, MAX_SAMPLES]

/-- Witness for C2: the spec scenario — pending entry for `"quick-add"`
inserted at t = 0, outcome recorded at t = 150 ms with success. -/
theorem spec_C2_record_focus_outcome_witness :
    (exampleWatchdogState.pending "quick-add" = none →
      record_focus_outcome exampleWatchdogState "quick-add" true 150 =
        exampleWatchdogState) ∧
    (∀ start, exampleWatchdogState.pending "quick-add" = some start →
      (record_focus_outcome exampleWatchdogState "quick-add" true 150).pending
          "quick-add" = none ∧
      (∀ l, l ≠ "quick-add" →
        (record_focus_outcome exampleWatchdogState "quick-add" true 150).pending l =
          exampleWatchdogState.pending l) ∧
      (record_focus_outcome exampleWatchdogState "quick-add"
          true 150).last_within_deadline =
        some (decide (150 - start ≤ 200) && true) ∧
      (record_focus_outcome exampleWatchdogState "quick-add" true 150).success_count =
        (if decide (150 - start ≤ 200) && true then
          u64satAdd exampleWatchdogState.success_count 1
         else exampleWatchdogState.success_count) ∧
      (record_focus_outcome exampleWatchdogState "quick-add"
          true 150).deadline_miss_count =
        (if decide (150 - start ≤ 200) && true then
          exampleWatchdogState.deadline_miss_count
         else u64satAdd exampleWatchdogState.deadline_miss_count 1) ∧
      (record_focus_outcome exampleWatchdogState "quick-add" true 150).latencies =
        (if (exampleWatchdogState.latencies ++ [150 - start]).length > 50 then
          (exampleWatchdogState.latencies ++ [150 - start]).tail
         else exampleWatchdogState.latencies ++ [150 - start]) ∧
      (record_focus_outcome exampleWatchdogState "quick-add"
          true 150).latencies.length ≤ 50) :=
  spec_C2_record_focus_outcome exampleWatchdogState "quick-add" true 150 rfl
    (by simp [exampleWatchdogState])

/-- C9: for an enabled watchdog, the snapshot's `average_latency_ms` is
`none` exactly when the latency ring buffer is empty, and otherwise is the
arithmetic mean (modelled exactly, in `ℚ`) of the samples currently in the
buffer; and `record_focus_outcome` keeps the buffer at no more than 50
samples. -/
theorem spec_C9_average_latency (st : WatchdogState) (hen : st.enabled = true) :
    ((diagnostics_snapshot st).average_latency_ms = none ↔ st.latencies = []) ∧
    (st.latencies ≠ [] →
      (diagnostics_snapshot st).average_latency_ms =
        some ((st.latencies.map fun n => (n : ℚ)).sum / (st.latencies.length : ℚ))) ∧
    (st.latencies.length ≤ 50 →
      ∀ label success now,
        (record_focus_outcome st label success now).latencies.length ≤ 50) := by
  refine ⟨?_, ?_, ?_⟩
  · by_cases hemp : st.latencies = []
    · simp [diagnostics_snapshot, hen, hemp]
    · simp [diagnostics_snapshot, hen, hemp]
  · intro hemp
    simp [diagnostics_snapshot, hen, hemp]
  · intro hlen label success now
    have := record_focus_outcome_latencies_le st label success now
      (by simpa [MAX_SAMPLES] using hlen)
    simpa [MAX_SAMPLES] using this

/-- Witness for C9 at the concrete enabled state with an empty buffer. -/
theorem spec_C9_average_latency_witness :
    ((diagnostics_snapshot exampleWatchdogState).average_latency_ms = none ↔
      exampleWatchdogState.latencies = []) ∧
    (exampleWatchdogState.latencies ≠ [] →
      (diagnostics_snapshot exampleWatchdogState).average_latency_ms =
        some ((exampleWatchdogState.latencies.map fun n => (n : ℚ)).sum /
          (exampleWatchdogState.latencies.length : ℚ))) ∧
    (exampleWatchdogState.latencies.length ≤ 50 →
      ∀ label success now,
        (record_focus_outcome exampleWatchdogState label success
          now).latencies.length ≤ 50) :=
  spec_C9_average_latency exampleWatchdogState rfl

/-! ## Diagnostics reconciliation (`window.rs`, `collect_window_diagnostics`)

The two reconciling `match` expressions of `collect_window_diagnostics`
(one per window), on `(raw, expected, override-flag)`. The Rust arm
`(Some(actual), Some(expected), true) if actual != expected` with its
guard fall-through to `(Some(actual), _, _) => actual` becomes an
`if actual != expected` inside that arm. -/

/-- The `is_visible` reconciliation: raw `window.is_visible().ok()`,
tracked `get_visibility_state(&label)`, flag
`SNIPS_ASSUME_WINDOW_VISIBILITY` set. -/
def reconcile_visibility : Option Bool → Option Bool → Bool → Option Bool
  | some actual, _, false => some actual
  | some actual, some expected, true =>
      if actual != expected then some expected else some actual
  | some actual, none, true => some actual
  | none, some expected, _ => some expected
  | none, none, _ => none

/-- The `always_on_top` reconciliation: raw `window.is_always_on_top().ok()`,
tracked `get_expected_on_top(&label)`, flag `SNIPS_ASSUME_PROFILE_TOP` set.
Unlike visibility it produces a plain `Bool`, defaulting to `false`. -/
def reconcile_always_on_top : Option Bool → Option Bool → Bool → Bool
  | some actual, _, false => actual
  | some actual, some expected, true =>
      if actual != expected then expected else actual
  | some actual, none, true => actual
  | none, some expected, _ => expected
  | none, none, _ => false

/-- The per-window toolkit answers and environment flags that
`collect_window_diagnostics` reads for one window. -/
structure WindowQueries where
  raw_visible : Option Bool
  expected_visible : Option Bool
  assume_visibility : Bool
  raw_always_on_top : Option Bool
  expected_on_top : Option Bool
  assume_expected : Bool

/-- The reconciled fields of one `WindowDiagnostic` record. -/
structure WindowDiagnostic where
  is_visible : Option Bool
  always_on_top : Bool
  visibility_expected : Option Bool
  always_on_top_expected : Option Bool
  deriving DecidableEq

/-- The body of the per-window closure in `collect_window_diagnostics`,
restricted to the reconciled fields. -/
def collect_window_diagnostics_entry (q : WindowQueries) : WindowDiagnostic where
  is_visible := reconcile_visibility q.raw_visible q.expected_visible q.assume_visibility
  always_on_top :=
    reconcile_always_on_top q.raw_always_on_top q.expected_on_top q.assume_expected
  visibility_expected := q.expected_visible
  always_on_top_expected := q.expected_on_top

/-- C3: in every diagnostics record both reconciled fields follow the same
rule — the live toolkit answer is used whenever it exists, and the tracked
expectation is substituted only when (a) the live query returned no answer
or (b) the diagnostic-override flag is set and the live answer disagrees
with the recorded expectation. -/
theorem spec_C3_reconciliation :
    ∀ (rv ev : Option Bool) (av : Bool) (rt et : Option Bool) (af : Bool),
      (∀ a, rv = some a → (av = false ∨ ev = none ∨ ev = some a) →
        (collect_window_diagnostics_entry ⟨rv, ev, av, rt, et, af⟩).is_visible =
          some a) ∧
      (∀ a e, rv = some a → av = true → ev = some e → e ≠ a →
        (collect_window_diagnostics_entry ⟨rv, ev, av, rt, et, af⟩).is_visible =
          some e) ∧
      (∀ e, rv = none → ev = some e →
        (collect_window_diagnostics_entry ⟨rv, ev, av, rt, et, af⟩).is_visible =
          some e) ∧
      (∀ a, rt = some a → (af = false ∨ et = none ∨ et = some a) →
        (collect_window_diagnostics_entry ⟨rv, ev, av, rt, et, af⟩).always_on_top =
          a) ∧
      (∀ a e, rt = some a → af = true → et = some e → e ≠ a →
        (collect_window_diagnostics_entry ⟨rv, ev, av, rt, et, af⟩).always_on_top =
          e) ∧
      (∀ e, rt = none → et = some e →
        (collect_window_diagnostics_entry ⟨rv, ev, av, rt, et, af⟩).always_on_top =
          e) := by
  refine fun rv ev av rt et af => ⟨?_, ?_, ?_, ?_, ?_, ?_⟩ <;>
    revert rv ev av rt et af <;> decide

/-- Witness for C3: live visibility `true` disagreeing with tracked `false`
under the override flag is reported as `false`; an absent live always-on-top
answer with tracked `true` is reported as `true`. -/
theorem spec_C3_reconciliation_witness :
    (collect_window_diagnostics_entry
      ⟨some true, some false, true, none, some true, false⟩).is_visible =
        some false ∧
    (collect_window_diagnostics_entry
      ⟨some true, some false, true, none, some true, false⟩).always_on_top = true :=
  ⟨(spec_C3_reconciliation (some true) (some false) true none (some true)
      false).2.1 true false rfl rfl rfl (by decide),
   ((spec_C3_reconciliation (some true) (some false) true none (some true)
      false).2.2.2.2.2) true rfl rfl⟩

/-- C10: when both the live query and the tracked expectation are absent,
the two reconciled fields default asymmetrically: `always_on_top` becomes
the concrete boolean `false` while `is_visible` stays `none`. -/
theorem spec_C10_absent_defaults :
    ∀ (av af : Bool) (rv ev rt et : Option Bool),
      rv = none → ev = none → rt = none → et = none →
      (collect_window_diagnostics_entry ⟨rv, ev, av, rt, et, af⟩).always_on_top =
        false ∧
      (collect_window_diagnostics_entry ⟨rv, ev, av, rt, et, af⟩).is_visible =
        none := by
  refine fun av af rv ev rt et h1 h2 h3 h4 => ⟨?_, ?_⟩ <;>
    subst h1 h2 h3 h4 <;> revert av af <;> decide

/-- Witness for C10 at both values of both flags folded to one instance. -/
theorem spec_C10_absent_defaults_witness :
    (collect_window_diagnostics_entry
      ⟨none, none, true, none, none, true⟩).always_on_top = false ∧
    (collect_window_diagnostics_entry
      ⟨none, none, true, none, none, true⟩).is_visible = none :=
  spec_C10_absent_defaults true true none none none none rfl rfl rfl rfl

/-! ## Floating policy (`window.rs`, quick-window preferences)

`enum WindowManager` and the compositor-aware floating policy. Detection
(`detect_window_manager`, reading environment variables) is not modelled;
the detected manager is a parameter. -/

inductive WindowManager
  | Hyprland | Sway | River | Other
  deriving DecidableEq, Repr

/-- `window_manager_label`. -/
def window_manager_label : WindowManager → String
  | .Hyprland => "hyprland"
  | .Sway => "sway"
  | .River => "river"
  | .Other => "other"

/-- The tiling set matched by the arm
`WindowManager::Hyprland | WindowManager::Sway | WindowManager::River` in
both `quick_windows_should_float` and `normalize_quick_window_preferences`. -/
def isTilingManager : WindowManager → Bool
  | .Hyprland | .Sway | .River => true
  | .Other => false

/-- `QuickWindowPreferences` (`models/settings.rs`); the
`HashMap<String, bool>` becomes a partial map. -/
structure QuickWindowPreferences where
  float_on_tiling : Bool
  per_wm_overrides : String → Option Bool

/-- `quick_windows_should_float()` (Linux build), with the detected manager
and the stored preferences passed explicitly instead of read from global
state. -/
def quick_windows_should_float (manager : WindowManager)
    (prefs : QuickWindowPreferences) : Bool :=
  match manager with
  | .Hyprland | .Sway | .River =>
      (prefs.per_wm_overrides (window_manager_label manager)).getD prefs.float_on_tiling
  | .Other => true

/-- `normalize_quick_window_preferences` (Linux build). -/
def normalize_quick_window_preferences (manager : WindowManager)
    (preferences : QuickWindowPreferences) : QuickWindowPreferences :=
  match manager with
  | .Hyprland | .Sway | .River =>
      { preferences with
        per_wm_overrides := fun k =>
          if k = window_manager_label manager then some preferences.float_on_tiling
          else preferences.per_wm_overrides k }
  | .Other => preferences

/-- C4: under a non-tiling compositor `quick_windows_should_float` is
`true` for every stored preference value; under a tiling compositor it is
the per-compositor override when present and `float_on_tiling` otherwise. -/
theorem spec_C4_should_float (manager : WindowManager)
    (prefs : QuickWindowPreferences) :
    (isTilingManager manager = false →
      quick_windows_should_float manager prefs = true) ∧
    (∀ b, isTilingManager manager = true →
      prefs.per_wm_overrides (window_manager_label manager) = some b →
      quick_windows_should_float manager prefs = b) ∧
    (isTilingManager manager = true →
      prefs.per_wm_overrides (window_manager_label manager) = none →
      quick_windows_should_float manager prefs = prefs.float_on_tiling) := by
  cases manager <;>
    refine ⟨fun h => ?_, fun b ht hov => ?_, fun ht hov => ?_⟩ <;>
    simp_all [quick_windows_should_float, isTilingManager, window_manager_label]

/-- Stored preferences with an explicit `false` override for Hyprland. -/
def examplePrefs : QuickWindowPreferences where
  float_on_tiling := true
  per_wm_overrides := fun k => if k = "hyprland" then some false else none

/-- Witness for C4: under Hyprland the `false` override wins over
`float_on_tiling = true`; under a non-tiling compositor the result is
`true` regardless. -/
theorem spec_C4_should_float_witness :
    quick_windows_should_float WindowManager.Hyprland examplePrefs = false ∧
    quick_windows_should_float WindowManager.Other examplePrefs = true :=
  ⟨(spec_C4_should_float WindowManager.Hyprland examplePrefs).2.1 false rfl rfl,
   (spec_C4_should_float WindowManager.Other examplePrefs).1 rfl⟩

/-- C5: normalization under a tiling compositor writes an explicit override
entry for the detected compositor equal to the preferences'
`float_on_tiling` value (which normalization leaves unchanged). -/
theorem spec_C5_normalize (manager : WindowManager) (p : QuickWindowPreferences)
    (ht : isTilingManager manager = true) :
    (normalize_quick_window_preferences manager p).per_wm_overrides
        (window_manager_label manager) = some p.float_on_tiling ∧
    (normalize_quick_window_preferences manager p).float_on_tiling =
      p.float_on_tiling := by
  cases manager <;>
    simp_all [normalize_quick_window_preferences, isTilingManager,
      window_manager_label]

/-- Witness for C5: the spec scenario — detected compositor `hyprland`,
`float_on_tiling = true`, no overrides yet; one normalization call yields
`per_wm_overrides "hyprland" = some true`. -/
theorem spec_C5_normalize_witness :
    (normalize_quick_window_preferences WindowManager.Hyprland
        ⟨true, fun _ => none⟩).per_wm_overrides "hyprland" = some true ∧
    (normalize_quick_window_preferences WindowManager.Hyprland
        ⟨true, fun _ => none⟩).float_on_tiling = true :=
  spec_C5_normalize WindowManager.Hyprland ⟨true, fun _ => none⟩ rfl

/-! ## String containment helper (used for the creation-error claims) -/

/-- `listPrefixOf n h`: `n` is a prefix of `h` (over characters). -/
def listPrefixOf : List Char → List Char → Bool
  | [], _ => true
  | _ :: _, [] => false
  | a :: as, b :: bs => a == b && listPrefixOf as bs

/-- `listOccurs n h`: `n` occurs contiguously somewhere in `h`. -/
def listOccurs (needle : List Char) : List Char → Bool
  | [] => listPrefixOf needle []
  | b :: bs => listPrefixOf needle (b :: bs) || listOccurs needle bs

/-- `strOccurs needle hay`: `needle` is a substring of `hay`. -/
def strOccurs (needle hay : String) : Bool := listOccurs needle.data hay.data

theorem listPrefixOf_refl (n : List Char) : listPrefixOf n n = true := by
  induction n with
  | nil => rfl
  | cons a as ih => simp [listPrefixOf, ih]

theorem listPrefixOf_append (n : List Char) :
    ∀ h t, listPrefixOf n h = true → listPrefixOf n (h ++ t) = true := by
  induction n with
  | nil => intro h t _; rfl
  | cons a as ih =>
      intro h t hp
      cases h with
      | nil => simp [listPrefixOf] at hp
      | cons b bs =>
          simp [listPrefixOf] at hp ⊢
          exact ⟨hp.1, ih bs t hp.2⟩

theorem listOccurs_nil_needle (t : List Char) : listOccurs [] t = true := by
  cases t <;> simp [listOccurs, listPrefixOf]

theorem listOccurs_append_right (n : List Char) :
    ∀ h t, listOccurs n h = true → listOccurs n (h ++ t) = true := by
  intro h
  induction h with
  | nil =>
      intro t ho
      cases n with
      | nil => exact listOccurs_nil_needle t
      | cons a as => simp [listOccurs, listPrefixOf] at ho
  | cons b bs ih =>
      intro t ho
      simp only [listOccurs, Bool.or_eq_true] at ho
      rcases ho with hp | ho
      · have := listPrefixOf_append n (b :: bs) t hp
        simp only [List.cons_append, listOccurs, Bool.or_eq_true]
        simp only [List.cons_append] at this
        exact Or.inl this
      · simp only [List.cons_append, listOccurs, Bool.or_eq_true]
        exact Or.inr (ih t ho)

theorem listOccurs_of_suffix (n : List Char) :
    ∀ pre, listOccurs n (pre ++ n) = true := by
  intro pre
  induction pre with
  | nil =>
      cases n with
      | nil => rfl
      | cons a as =>
          simp only [List.nil_append, listOccurs, Bool.or_eq_true]
          exact Or.inl (listPrefixOf_refl _)
  | cons p ps ih =>
      simp only [List.cons_append, listOccurs, Bool.or_eq_true]
      exact Or.inr ih

/-! ## Window registry and toggle (`window.rs`)

`AppError` (`utils/error.rs`) restricted to the variants the window layer
constructs. The toolkit is abstracted to: does a window with the label
already exist, does `builder.build()` succeed, what does `is_visible()`
report, and what does the `WINDOW_VISIBILITY_STATE` map hold. A newly
built window is visible (the builders deliberately have no
`visible(false)` — the Wayland fix noted at `get_or_create_search_window`)
while `record_visibility_state(label, false)` is called right after
creation. `show_window`/`hide_window` are modelled on their visibility
effect (the focus backoff is covered separately); `hide` is modelled on
its success path. -/

inductive AppError
  | TauriError (msg : String)
  | NotFound (msg : String)
  | External (msg : String)
  | Unsupported (msg : String)
  deriving DecidableEq, Repr

/-- Abstract state of the search window: presence in
`app.webview_windows()`, the raw `window.is_visible()` answer, and the
tracked `WINDOW_VISIBILITY_STATE` entry for `"search"`. -/
structure SearchWinState where
  windowExists : Bool
  toolkitVisible : Bool
  tracked : Option Bool
  deriving DecidableEq, Repr

/-- `get_or_create_search_window`: return the existing window, or build one
(`build` is the `builder.build()` outcome); on failure the error is
`TauriError("Failed to create search window: " ++ e)`; on success the new
window is visible and `record_visibility_state(SEARCH_WINDOW_LABEL, false)`
runs. -/
def get_or_create_search_window (build : Except String Unit) (s : SearchWinState) :
    Except AppError SearchWinState :=
  if s.windowExists then Except.ok s
  else
    match build with
    | Except.error e =>
        Except.error (AppError.TauriError ("Failed to create search window: " ++ e))
    | Except.ok _ =>
        Except.ok { windowExists := true, toolkitVisible := true, tracked := some false }

/-- `get_or_create_management_window` reduced to its creation outcome: the
build error is wrapped as `TauriError(e.to_string())` — no label, no
creation marker. -/
def get_or_create_management_window (windowExists : Bool)
    (build : Except String Unit) : Except AppError Unit :=
  if windowExists then Except.ok ()
  else
    match build with
    | Except.error e => Except.error (AppError.TauriError e)
    | Except.ok _ => Except.ok ()

/-- `get_or_create_quick_add_window` reduced to its creation outcome. -/
def get_or_create_quick_add_window (windowExists : Bool)
    (build : Except String Unit) : Except AppError Unit :=
  if windowExists then Except.ok ()
  else
    match build with
    | Except.error e =>
        Except.error (AppError.TauriError ("Failed to create Quick Add window: " ++ e))
    | Except.ok _ => Except.ok ()

/-- `get_or_create_settings_window` reduced to its creation outcome
(`TauriError(e.to_string())`, like the management window). -/
def get_or_create_settings_window (windowExists : Bool)
    (build : Except String Unit) : Except AppError Unit :=
  if windowExists then Except.ok ()
  else
    match build with
    | Except.error e => Except.error (AppError.TauriError e)
    | Except.ok _ => Except.ok ()

/-- `show_window` on the abstract state: `window.show()` then
`record_visibility_state(label, true)`. -/
def show_window (s : SearchWinState) : SearchWinState :=
  { s with toolkitVisible := true, tracked := some true }

/-- `hide_window` (success path) on the abstract state: `window.hide()`
then `record_visibility_state(label, false)`. -/
def hide_window (s : SearchWinState) : SearchWinState :=
  { s with toolkitVisible := false, tracked := some false }

/-- `toggle_search_window`: effective visibility combines the raw query
with the tracked expectation (`visible=true` with tracked `false` counts
as hidden), then hide or show accordingly (`center_window` has no effect
on this state). -/
def toggle_search_window (build : Except String Unit) (s : SearchWinState) :
    Except AppError SearchWinState := do
  let w ← get_or_create_search_window build s
  let actual_visible := w.toolkitVisible
  let expected_visible := w.tracked.getD actual_visible
  let is_effectively_visible :=
    if actual_visible && !expected_visible then false else actual_visible
  if is_effectively_visible then
    return hide_window w
  else
    return show_window w

/-- C6: toggle treats a window whose toolkit visibility is `true` but whose
tracked expectation is `false` as effectively hidden and shows it; it hides
exactly the effectively-visible window; and on a freshly created search
window two consecutive toggles first show then hide, ending with the
toolkit visibility `false`. -/
theorem spec_C6_toggle (s : SearchWinState) :
    (∀ w, get_or_create_search_window (Except.ok ()) s = Except.ok w →
      ((w.toolkitVisible = true ∧ w.tracked = some false →
          toggle_search_window (Except.ok ()) s = Except.ok (show_window w)) ∧
        (w.toolkitVisible = true ∧ w.tracked ≠ some false →
          toggle_search_window (Except.ok ()) s = Except.ok (hide_window w)) ∧
        (w.toolkitVisible = false →
          toggle_search_window (Except.ok ()) s = Except.ok (show_window w)))) ∧
    (s.windowExists = false →
      ∃ s1 s2, toggle_search_window (Except.ok ()) s = Except.ok s1 ∧
        toggle_search_window (Except.ok ()) s1 = Except.ok s2 ∧
        s1.toolkitVisible = true ∧ s2.toolkitVisible = false ∧
        s2.tracked = some false) := by
  constructor
  · intro w hw
    have htog : toggle_search_window (Except.ok ()) s =
        (if (if w.toolkitVisible && !(w.tracked.getD w.toolkitVisible) then false
             else w.toolkitVisible) then Except.ok (hide_window w)
         else Except.ok (show_window w)) := by
      unfold toggle_search_window
      rw [hw]
      rfl
    refine ⟨?_, ?_, ?_⟩
    · rintro ⟨hv, ht⟩
      rw [htog]
      simp [hv, ht]
    · rintro ⟨hv, ht⟩
      rw [htog]
      cases hw' : w.tracked with
      | none => simp [hv, hw']
      | some b =>
          cases b with
          | false => exact absurd hw' ht
          | true => simp [hv, hw']
    · intro hv
      rw [htog]
      simp [hv]
  · intro hex
    refine ⟨⟨true, true, some true⟩, ⟨true, false, some false⟩, ?_, rfl, rfl, rfl, rfl⟩
    have h1 : get_or_create_search_window (Except.ok ()) s =
        Except.ok ⟨true, true, some false⟩ := by
      simp [get_or_create_search_window, hex]
    unfold toggle_search_window
    rw [h1]
    rfl

/-- Witness for C6: the double-toggle scenario on a state with no search
window yet. -/
theorem spec_C6_toggle_witness :
    ∃ s1 s2,
      toggle_search_window (Except.ok ()) ⟨false, false, none⟩ = Except.ok s1 ∧
      toggle_search_window (Except.ok ()) s1 = Except.ok s2 ∧
      s1.toolkitVisible = true ∧ s2.toolkitVisible = false ∧
      s2.tracked = some false :=
  (spec_C6_toggle ⟨false, false, none⟩).2 rfl

/-- C8 fails as stated: the management window's creation failure is
`TauriError(e.to_string())`, which carries neither the label nor any
"window creation failed" marker — with toolkit error `"boom"` the caller
receives exactly `TauriError "boom"`. -/
theorem spec_C8_counterexample :
    get_or_create_management_window false (Except.error "boom") =
      Except.error (AppError.TauriError "boom") ∧
    strOccurs "management" "boom" = false ∧
    strOccurs "window creation failed" "boom" = false ∧
    strOccurs "Failed to create" "boom" = false := by
  refine ⟨rfl, ?_, ?_, ?_⟩ <;> decide

/-- C8 (amended): every `get_or_create` surfaces a construction failure to
its caller as an `AppError` value (never a process abort — the embeddings
are total); the search and quick-add windows wrap it in a distinct
"Failed to create … window" message that carries the window's name and the
underlying toolkit error string, while the management and settings windows
return the toolkit error string alone. -/
theorem spec_C8_amended (e : String) (s : SearchWinState)
    (hex : s.windowExists = false) :
    get_or_create_search_window (Except.error e) s =
      Except.error (AppError.TauriError ("Failed to create search window: " ++ e)) ∧
    strOccurs "search" ("Failed to create search window: " ++ e) = true ∧
    strOccurs e ("Failed to create search window: " ++ e) = true ∧
    get_or_create_quick_add_window false (Except.error e) =
      Except.error (AppError.TauriError ("Failed to create Quick Add window: " ++ e)) ∧
    strOccurs "Quick Add" ("Failed to create Quick Add window: " ++ e) = true ∧
    strOccurs e ("Failed to create Quick Add window: " ++ e) = true ∧
    get_or_create_management_window false (Except.error e) =
      Except.error (AppError.TauriError e) ∧
    get_or_create_settings_window false (Except.error e) =
      Except.error (AppError.TauriError e) := by
  refine ⟨?_, ?_, ?_, rfl, ?_, ?_, rfl, rfl⟩
  · simp [get_or_create_search_window, hex]
  · unfold strOccurs
    rw [String.data_append]
    exact listOccurs_append_right _ _ _ (by decide)
  · unfold strOccurs
    rw [String.data_append]
    exact listOccurs_of_suffix _ _
  · unfold strOccurs
    rw [String.data_append]
    exact listOccurs_append_right _ _ _ (by decide)
  · unfold strOccurs
    rw [String.data_append]
    exact listOccurs_of_suffix _ _

/-- Witness for the amended C8 with toolkit error `"boom"` and no existing
search window. -/
theorem spec_C8_amended_witness :
    get_or_create_search_window (Except.error "boom") ⟨false, false, none⟩ =
      Except.error
        (AppError.TauriError ("Failed to create search window: " ++ "boom")) ∧
    strOccurs "search" ("Failed to create search window: " ++ "boom") = true ∧
    strOccurs "boom" ("Failed to create search window: " ++ "boom") = true ∧
    get_or_create_quick_add_window false (Except.error "boom") =
      Except.error
        (AppError.TauriError ("Failed to create Quick Add window: " ++ "boom")) ∧
    strOccurs "Quick Add" ("Failed to create Quick Add window: " ++ "boom") = true ∧
    strOccurs "boom" ("Failed to create Quick Add window: " ++ "boom") = true ∧
    get_or_create_management_window false (Except.error "boom") =
      Except.error (AppError.TauriError "boom") ∧
    get_or_create_settings_window false (Except.error "boom") =
      Except.error (AppError.TauriError "boom") :=
  spec_C8_amended "boom" ⟨false, false, none⟩ rfl

/-! ## Quick capture (`window.rs`, `show_quick_add_window`) -/

/-- Observable steps of `show_quick_add_window`, in program order.
`capture` is `capture_selected_text_sync()`; `showWindow` is
`show_window(&window)`, inside which `recordFocusOutcome` stands for
`record_focus_metrics` + `dbus_watchdog::record_focus_outcome`;
`emitCapture` is the deferred `selected-text-captured` emission. -/
inductive QEffect
  | capture
  | createWindow
  | centerWindow
  | showWindow
  | recordFocusOutcome
  | emitCapture
  deriving DecidableEq, Repr

/-- Inputs of one `show_quick_add_window` call: the selection reader's
outcome, whether the quick-add window already exists, and the builder
outcome if it has to be created. -/
structure QuickAddEnv where
  captureResult : Except AppError String
  windowExists : Bool
  createResult : Except String Unit

/-- `show_quick_add_window`: capture the selection first (before any
window operation); abort with the reader's error, or with
`NotFound "No text selected"` when the captured text trims to empty;
otherwise get-or-create, center, show (recording the focus outcome) and
schedule the capture event. Returns the command result and the trace of
performed steps. -/
def show_quick_add_window (env : QuickAddEnv) :
    Except AppError Unit × List QEffect :=
  match env.captureResult with
  | Except.error e => (Except.error e, [QEffect.capture])
  | Except.ok text =>
    if text.trim.isEmpty then
      (Except.error (AppError.NotFound "No text selected"), [QEffect.capture])
    else
      match get_or_create_quick_add_window env.windowExists env.createResult with
      | Except.error err => (Except.error err, [QEffect.capture, QEffect.createWindow])
      | Except.ok _ =>
          (Except.ok (),
            [QEffect.capture, QEffect.createWindow, QEffect.centerWindow,
              QEffect.showWindow, QEffect.recordFocusOutcome, QEffect.emitCapture])

/-- C7: the selection capture is the first step of every
`show_quick_add_window` call (so it precedes any showing of the surface),
and when the reader errors or the captured text trims to empty the command
returns that error, the surface is never shown and no focus outcome is
recorded. -/
theorem spec_C7_quick_capture (env : QuickAddEnv) :
    (show_quick_add_window env).2.head? = some QEffect.capture ∧
    (∀ e, env.captureResult = Except.error e →
      (show_quick_add_window env).1 = Except.error e ∧
      (show_quick_add_window env).2 = [QEffect.capture] ∧
      QEffect.showWindow ∉ (show_quick_add_window env).2 ∧
      QEffect.recordFocusOutcome ∉ (show_quick_add_window env).2) ∧
    (∀ t, env.captureResult = Except.ok t → t.trim.isEmpty = true →
      (show_quick_add_window env).1 =
        Except.error (AppError.NotFound "No text selected") ∧
      (show_quick_add_window env).2 = [QEffect.capture] ∧
      QEffect.showWindow ∉ (show_quick_add_window env).2 ∧
      QEffect.recordFocusOutcome ∉ (show_quick_add_window env).2) := by
  refine ⟨?_, ?_, ?_⟩
  · cases hc : env.captureResult with
    | error e => simp [show_quick_add_window, hc]
    | ok t =>
        by_cases ht : t.trim.isEmpty
        · simp [show_quick_add_window, hc, ht]
        · cases hg : get_or_create_quick_add_window env.windowExists
            env.createResult with
          | error err => simp [show_quick_add_window, hc, ht, hg]
          | ok u => simp [show_quick_add_window, hc, ht, hg]
  · intro e hc
    simp [show_quick_add_window, hc]
  · intro t hc ht
    simp [show_quick_add_window, hc, ht]

/-- Witness for C7: the forced-capture-error path
(`SNIPS_FORCE_CAPTURE_ERROR`, `NotFound "No text selected"`). -/
theorem spec_C7_quick_capture_witness :
    (show_quick_add_window
        ⟨Except.error (AppError.NotFound "No text selected"), false,
          Except.ok ()⟩).1 =
      Except.error (AppError.NotFound "No text selected") ∧
    (show_quick_add_window
        ⟨Except.error (AppError.NotFound "No text selected"), false,
          Except.ok ()⟩).2 = [QEffect.capture] ∧
    QEffect.showWindow ∉
      (show_quick_add_window
        ⟨Except.error (AppError.NotFound "No text selected"), false,
          Except.ok ()⟩).2 ∧
    QEffect.recordFocusOutcome ∉
      (show_quick_add_window
        ⟨Except.error (AppError.NotFound "No text selected"), false,
          Except.ok ()⟩).2 :=
  (spec_C7_quick_capture
      ⟨Except.error (AppError.NotFound "No text selected"), false,
        Except.ok ()⟩).2.1
    (AppError.NotFound "No text selected") rfl

end Snips
